import Mathlib

/-!
# SMS-backend: shallow embedding of the order/payment reconciliation core

This file embeds, as pure Lean functions, the route handlers of the
SMS reseller backend that the verified claims are about:

* `POST /api/admin/orders/:id/confirm` and `POST /api/admin/orders/:id/reject`
  (src/routes/adminOrders.js) — the manual-order approval flow;
* `POST /api/admin/deposits/:id/confirm` and `POST /api/admin/deposits/:id/reject`
  (the admin deposits router) — the deposit ledger flow;
* the scheduled order-sync sweep (src/jobs/orderSync.js) and the on-demand
  refresh `GET /api/orders/:id/status` (user orders router) — the
  reconciliation engine.

Modelling conventions:
* Currency amounts (`balance`, `charge`, `amount`) are `Rat`, the exact
  value of the JavaScript number in every scenario the claims mention.
* Mongoose documents become records whose fields are exactly those the
  handlers read or write; a `save()` / `findOneAndUpdate` is the record
  update, and the HTTP error responses (`res.status(400/404)`) become
  `Except.error` — no state is mutated on those paths in the source
  because every guard precedes every write.
* A JavaScript-truthy optional field is `some v`; absent / `null` /
  `undefined` / empty-string / falsy is `none` (so `st.status && ...`
  is `snap.status = some s`).
* In-app notifications (`Notification.create`) are modelled as a counter;
  e-mail (`sendMail`) failures are caught in the source and never affect
  state, so e-mail is not modelled.
-/

/-- The fields of the `Order` model read/written by the manual-order
approval handlers in src/routes/adminOrders.js. -/
structure OrderRec where
  provider : String
  status : String
  adminNotes : String
  charge : Rat
  deriving DecidableEq

/-- The fields of the correlated `order`-type `Transaction`
(`reference = manual-order:<orderId>`) that the approval handlers touch. -/
structure TxnRec where
  amount : Rat
  status : String
  deriving DecidableEq

/-- Database state seen by one manual-order approval request: the order,
the result of `Transaction.findOne (reference = manual-order:<orderId>)`
(`none` when no such transaction exists), the owning user's balance, and
the number of `Notification` documents created so far. -/
structure AdminSt where
  order : OrderRec
  txn : Option TxnRec
  balance : Rat
  notifications : Nat
  deriving DecidableEq

/-- `POST /api/admin/orders/:id/confirm` (src/routes/adminOrders.js,
lines 112-161).  Guards: provider must be `manual` and status must be
`Pending Admin Approval`.  Then: set status `Completed` and adminNotes
(`req.body.notes || 'Confirmed by admin'`); if the correlated transaction
exists, deduct the charge from the balance only when `balance >= charge`,
and mark the transaction `completed` unconditionally; create one
notification. -/
def confirmOrder (notes : Option String) (s : AdminSt) : Except String AdminSt :=
  if s.order.provider ≠ "manual" then
    .error "Only manual orders can be confirmed"
  else if s.order.status ≠ "Pending Admin Approval" then
    .error "Order is not awaiting admin confirmation"
  else
    let o := { s.order with
                status := "Completed",
                adminNotes := notes.getD "Confirmed by admin" }
    match s.txn with
    | some t =>
        let newBalance := if s.balance ≥ o.charge then s.balance - o.charge else s.balance
        .ok { order := o,
              txn := some { t with status := "completed" },
              balance := newBalance,
              notifications := s.notifications + 1 }
    | none =>
        .ok { order := o,
              txn := none,
              balance := s.balance,
              notifications := s.notifications + 1 }

/-- `POST /api/admin/orders/:id/reject` (src/routes/adminOrders.js,
lines 167-210).  Same guards; then `findOneAndUpdate` marks the correlated
transaction `failed` (when it exists), the order becomes `Rejected` with
adminNotes (`req.body.reason || 'Rejected by admin'`), the balance is not
touched, and one notification is created. -/
def rejectOrder (reason : Option String) (s : AdminSt) : Except String AdminSt :=
  if s.order.provider ≠ "manual" then
    .error "Only manual orders can be rejected"
  else if s.order.status ≠ "Pending Admin Approval" then
    .error "Order is not awaiting admin confirmation"
  else
    let newTxn := s.txn.map (fun t => { t with status := "failed" })
    let o := { s.order with
                status := "Rejected",
                adminNotes := reason.getD "Rejected by admin" }
    .ok { order := o,
          txn := newTxn,
          balance := s.balance,
          notifications := s.notifications + 1 }

/-- An admin action on a single manual order. -/
inductive AdminOp where
  | confirm (notes : Option String)
  | reject (reason : Option String)
  deriving DecidableEq

def adminStep (op : AdminOp) (s : AdminSt) : Except String AdminSt :=
  match op with
  | .confirm notes => confirmOrder notes s
  | .reject reason => rejectOrder reason s

/-- A sequence of admin confirm/reject requests against one order: an
error response leaves the database untouched (all guards in the source
precede all writes) and later requests still run. -/
def adminRun : List AdminOp → AdminSt → AdminSt
  | [], s => s
  | op :: rest, s =>
      match adminStep op s with
      | .ok s2 => adminRun rest s2
      | .error _ => adminRun rest s

/-- The fields of a deposit `Transaction` touched by the admin deposits
router (`POST /api/admin/deposits/:id/confirm` and `/reject`). -/
structure DepositTxn where
  type : String
  amount : Rat
  status : String
  rejectReason : Option String
  deriving DecidableEq

/-- Database state seen by one deposit confirm/reject request: the
transaction, its owner's balance, and the notification count. -/
structure DepositSt where
  tx : DepositTxn
  balance : Rat
  notifications : Nat
  deriving DecidableEq

/-- `POST /api/admin/deposits/:id/confirm`.  Guards: `type` must be
`deposit`, status must be neither `completed` nor `failed`.  Then the
transaction becomes `completed`, the balance is credited with
`tx.amount`, and one notification is created. -/
def confirmDeposit (s : DepositSt) : Except String DepositSt :=
  if s.tx.type ≠ "deposit" then .error "Not a deposit transaction"
  else if s.tx.status = "completed" then .error "Already confirmed"
  else if s.tx.status = "failed" then .error "Already rejected"
  else
    .ok { tx := { s.tx with status := "completed" },
          balance := s.balance + s.tx.amount,
          notifications := s.notifications + 1 }

/-- `POST /api/admin/deposits/:id/reject`.  Same guards; the transaction
becomes `failed` with `rejectReason = reason || 'No reason provided'`,
the balance is untouched, and one notification is created. -/
def rejectDeposit (reason : Option String) (s : DepositSt) : Except String DepositSt :=
  if s.tx.type ≠ "deposit" then .error "Not a deposit transaction"
  else if s.tx.status = "completed" then .error "Already confirmed"
  else if s.tx.status = "failed" then .error "Already rejected"
  else
    .ok { tx := { s.tx with
                   status := "failed",
                   rejectReason := some (reason.getD "No reason provided") },
          balance := s.balance,
          notifications := s.notifications + 1 }

/-- An admin action on a single deposit transaction. -/
inductive DepositOp where
  | confirm
  | reject (reason : Option String)
  deriving DecidableEq

def depositStep (op : DepositOp) (s : DepositSt) : Except String DepositSt :=
  match op with
  | .confirm => confirmDeposit s
  | .reject reason => rejectDeposit reason s

/-- A sequence of deposit confirm/reject requests against one
transaction; error responses leave the database untouched. -/
def depositRun : List DepositOp → DepositSt → DepositSt
  | [], s => s
  | op :: rest, s =>
      match depositStep op s with
      | .ok s2 => depositRun rest s2
      | .error _ => depositRun rest s

/-- The fields of the `Order` model read/written by the reconciliation
engine (order-sync sweep and on-demand refresh). -/
structure SyncOrder where
  provider : String
  providerOrder : Option Nat
  status : String
  charge : Rat
  start_count : Nat
  remains : Nat
  currency : String
  deriving DecidableEq

/-- A provider status snapshot as returned by `secsers.status`; each
field is `some v` exactly when the corresponding JSON field is truthy. -/
structure StatusSnapshot where
  status : Option String
  charge : Option Rat
  start_count : Option Nat
  remains : Option Nat
  currency : Option String
  deriving DecidableEq

/-- The body of one sweep iteration after a successful provider call
(src/jobs/orderSync.js, lines 18-50): only when the snapshot is truthy,
carries a truthy `status`, and that status differs from the stored one,
are the snapshot fields merged and the order saved; then one in-app
notification is created provided `User.findById` finds the owner.
Returns the stored order and the number of notifications created. -/
def sweepApply (st : Option StatusSnapshot) (userExists : Bool) (o : SyncOrder) :
    SyncOrder × Nat :=
  match st with
  | none => (o, 0)
  | some snap =>
      match snap.status with
      | none => (o, 0)
      | some newStatus =>
          if newStatus ≠ o.status then
            ({ o with
                status := newStatus,
                charge := snap.charge.getD o.charge,
                start_count := snap.start_count.getD o.start_count,
                remains := snap.remains.getD o.remains,
                currency := snap.currency.getD o.currency },
             if userExists then 1 else 0)
          else (o, 0)

/-- One sweep iteration for one order: orders without a `providerOrder`
are skipped (`continue`); a throwing provider call (`fetch` returning
`.error`) is caught, logged and leaves the order untouched. -/
def sweepOrder (fetch : Nat → Except String (Option StatusSnapshot))
    (userExists : Bool) (o : SyncOrder) : SyncOrder × Nat :=
  match o.providerOrder with
  | none => (o, 0)
  | some pid =>
      match fetch pid with
      | .error _ => (o, 0)
      | .ok st => sweepApply st userExists o

/-- One execution of the scheduled sweep over the open orders: each
order is processed independently in sequence; the job itself never
throws (per-order failures are absorbed by `sweepOrder`).  Returns the
stored orders and the total number of notifications created. -/
def runSweep (fetch : Nat → Except String (Option StatusSnapshot))
    (userExists : Bool) : List SyncOrder → List SyncOrder × Nat
  | [] => ([], 0)
  | o :: rest =>
      let p := sweepOrder fetch userExists o
      let q := runSweep fetch userExists rest
      (p.1 :: q.1, p.2 + q.2)

/-- `GET /api/orders/:id/status` (user orders router), success path of
the provider call: guards require provider `secsers` and a
`providerOrder` id; then every truthy snapshot field is merged
(`local.status = st?.status || local.status`, etc.) and the order is
saved unconditionally; one in-app notification is created exactly when
the snapshot carries a truthy `status` different from the old one.
Returns the stored order and the number of notifications created. -/
def refreshOrder (st : Option StatusSnapshot) (o : SyncOrder) :
    Except String (SyncOrder × Nat) :=
  if o.provider ≠ "secsers" then
    .error "Only secsers orders can be refreshed automatically"
  else
    match o.providerOrder with
    | none => .error "Order not placed yet"
    | some _ =>
        let o2 := { o with
                     status := (st.bind (fun x => x.status)).getD o.status,
                     charge := (st.bind (fun x => x.charge)).getD o.charge,
                     start_count := (st.bind (fun x => x.start_count)).getD o.start_count,
                     remains := (st.bind (fun x => x.remains)).getD o.remains,
                     currency := (st.bind (fun x => x.currency)).getD o.currency }
        let notif := match st.bind (fun x => x.status) with
          | some s2 => if s2 ≠ o.status then 1 else 0
          | none => 0
        .ok (o2, notif)

/-! ## Theorems -/

/-- C1: for a manual order in status "Pending Admin Approval" whose owner's
balance is at least the order's charge, the admin confirm sets the order
status to "Completed", decrements the balance by exactly the charge, and
sets the correlated transaction to status "completed". -/
theorem confirm_sufficient_balance (notes : Option String) (s : AdminSt) (t : TxnRec)
    (hp : s.order.provider = "manual")
    (hs : s.order.status = "Pending Admin Approval")
    (ht : s.txn = some t)
    (hb : s.order.charge ≤ s.balance) :
    ∃ s2, confirmOrder notes s = .ok s2 ∧
      s2.order.status = "Completed" ∧
      s2.balance = s.balance - s.order.charge ∧
      s2.txn = some { t with status := "completed" } := by
  have hok : confirmOrder notes s =
      .ok { order := { s.order with
                        status := "Completed",
                        adminNotes := notes.getD "Confirmed by admin" },
            txn := some { t with status := "completed" },
            balance := s.balance - s.order.charge,
            notifications := s.notifications + 1 } := by
    unfold confirmOrder
    rw [ht]
    simp [hp, hs, ge_iff_le, hb]
  exact ⟨_, hok, rfl, rfl, rfl⟩

theorem confirm_sufficient_balance_witness :
    ∃ s2, confirmOrder none
        { order := { provider := "manual", status := "Pending Admin Approval",
                     adminNotes := "", charge := 20 },
          txn := some { amount := 20, status := "pending" },
          balance := 50, notifications := 0 } = .ok s2 ∧
      s2.order.status = "Completed" ∧
      s2.balance = 50 - 20 ∧
      s2.txn = some { amount := 20, status := "completed" } :=
  confirm_sufficient_balance none _ { amount := 20, status := "pending" }
    rfl rfl rfl (by norm_num)

/-- C3: for a manual order in "Pending Admin Approval" whose owner's balance
is strictly less than the order's charge, the admin confirm marks the
correlated transaction "completed" without deducting anything from the
balance, and the order still becomes "Completed". -/
theorem confirm_insufficient_balance (notes : Option String) (s : AdminSt) (t : TxnRec)
    (hp : s.order.provider = "manual")
    (hs : s.order.status = "Pending Admin Approval")
    (ht : s.txn = some t)
    (hb : s.balance < s.order.charge) :
    ∃ s2, confirmOrder notes s = .ok s2 ∧
      s2.txn = some { t with status := "completed" } ∧
      s2.balance = s.balance ∧
      s2.order.status = "Completed" := by
  have hok : confirmOrder notes s =
      .ok { order := { s.order with
                        status := "Completed",
                        adminNotes := notes.getD "Confirmed by admin" },
            txn := some { t with status := "completed" },
            balance := s.balance,
            notifications := s.notifications + 1 } := by
    unfold confirmOrder
    rw [ht]
    simp [hp, hs, ge_iff_le, not_le.mpr hb]
  exact ⟨_, hok, rfl, rfl, rfl⟩

theorem confirm_insufficient_balance_witness :
    ∃ s2, confirmOrder none
        { order := { provider := "manual", status := "Pending Admin Approval",
                     adminNotes := "", charge := 20 },
          txn := some { amount := 20, status := "pending" },
          balance := 5, notifications := 0 } = .ok s2 ∧
      s2.txn = some { amount := 20, status := "completed" } ∧
      s2.balance = 5 ∧
      s2.order.status = "Completed" :=
  confirm_insufficient_balance none _ { amount := 20, status := "pending" }
    rfl rfl rfl (by norm_num)

/-- C9: confirming a manual order in "Pending Admin Approval" for which no
correlated transaction exists still succeeds: the order becomes
"Completed" while no transaction is modified and the balance is
unchanged. -/
theorem confirm_without_transaction (notes : Option String) (s : AdminSt)
    (hp : s.order.provider = "manual")
    (hs : s.order.status = "Pending Admin Approval")
    (ht : s.txn = none) :
    ∃ s2, confirmOrder notes s = .ok s2 ∧
      s2.order.status = "Completed" ∧
      s2.txn = none ∧
      s2.balance = s.balance := by
  have hok : confirmOrder notes s =
      .ok { order := { s.order with
                        status := "Completed",
                        adminNotes := notes.getD "Confirmed by admin" },
            txn := none,
            balance := s.balance,
            notifications := s.notifications + 1 } := by
    unfold confirmOrder
    rw [ht]
    simp [hp, hs]
  exact ⟨_, hok, rfl, rfl, rfl⟩

theorem confirm_without_transaction_witness :
    ∃ s2, confirmOrder none
        { order := { provider := "manual", status := "Pending Admin Approval",
                     adminNotes := "", charge := 20 },
          txn := none, balance := 50, notifications := 0 } = .ok s2 ∧
      s2.order.status = "Completed" ∧
      s2.txn = none ∧
      s2.balance = 50 :=
  confirm_without_transaction none _ rfl rfl rfl

/-- C8: for a manual order in "Pending Admin Approval", the admin reject
marks the correlated transaction "failed", sets the order status to
"Rejected" with the given reason in adminNotes, creates a notification
for the user, and leaves the balance unchanged. -/
theorem reject_pending_order (reason : String) (s : AdminSt) (t : TxnRec)
    (hp : s.order.provider = "manual")
    (hs : s.order.status = "Pending Admin Approval")
    (ht : s.txn = some t) :
    ∃ s2, rejectOrder (some reason) s = .ok s2 ∧
      s2.txn = some { t with status := "failed" } ∧
      s2.order.status = "Rejected" ∧
      s2.order.adminNotes = reason ∧
      s2.balance = s.balance ∧
      s2.notifications = s.notifications + 1 := by
  have hok : rejectOrder (some reason) s =
      .ok { order := { s.order with status := "Rejected", adminNotes := reason },
            txn := some { t with status := "failed" },
            balance := s.balance,
            notifications := s.notifications + 1 } := by
    unfold rejectOrder
    rw [ht]
    simp [hp, hs, Option.getD]
  exact ⟨_, hok, rfl, rfl, rfl, rfl, rfl⟩

theorem reject_pending_order_witness :
    ∃ s2, rejectOrder (some "out of stock")
        { order := { provider := "manual", status := "Pending Admin Approval",
                     adminNotes := "", charge := 20 },
          txn := some { amount := 20, status := "pending" },
          balance := 50, notifications := 0 } = .ok s2 ∧
      s2.txn = some { amount := 20, status := "failed" } ∧
      s2.order.status = "Rejected" ∧
      s2.order.adminNotes = "out of stock" ∧
      s2.balance = 50 ∧
      s2.notifications = 0 + 1 :=
  reject_pending_order "out of stock" _ { amount := 20, status := "pending" } rfl rfl rfl

/-- The concrete state of spec section 8's insufficient-balance scenario:
a manual order with charge 20 awaiting approval, its pending correlated
transaction, and an owner balance of 5. -/
def lowBalanceSt : AdminSt :=
  { order := { provider := "manual", status := "Pending Admin Approval",
               adminNotes := "", charge := 20 },
    txn := some { amount := 20, status := "pending" },
    balance := 5, notifications := 0 }

/-- C2: the wallet-ledger atomicity guarantee fails on the manual-order
confirm path.  Confirming the order of `lowBalanceSt` (balance 5 < charge
20) succeeds and yields a state whose correlated transaction is
"completed" while the balance was not moved at all — a reachable state in
which the transaction says "completed" but the balance mutation was not
applied. -/
theorem completed_without_balance_move :
    ∃ s2, confirmOrder none lowBalanceSt = .ok s2 ∧
      s2.txn = some { amount := 20, status := "completed" } ∧
      s2.balance = lowBalanceSt.balance := by
  refine ⟨_, rfl, ?_, ?_⟩ <;> rfl

/-- C7: confirming a pending deposit transaction makes the balance
afterwards equal the balance before plus the transaction amount and the
transaction "completed"; rejecting a pending deposit leaves the balance
unchanged and makes the transaction "failed". -/
theorem deposit_confirm_adds_reject_keeps (s : DepositSt) (reason : Option String)
    (hty : s.tx.type = "deposit")
    (hst : s.tx.status = "pending") :
    (∃ s2, confirmDeposit s = .ok s2 ∧
        s2.balance = s.balance + s.tx.amount ∧
        s2.tx.status = "completed") ∧
    (∃ s3, rejectDeposit reason s = .ok s3 ∧
        s3.balance = s.balance ∧
        s3.tx.status = "failed") := by
  constructor
  · have hok : confirmDeposit s =
        .ok { tx := { s.tx with status := "completed" },
              balance := s.balance + s.tx.amount,
              notifications := s.notifications + 1 } := by
      unfold confirmDeposit
      simp [hty, hst]
    exact ⟨_, hok, rfl, rfl⟩
  · have hok : rejectDeposit reason s =
        .ok { tx := { s.tx with
                       status := "failed",
                       rejectReason := some (reason.getD "No reason provided") },
              balance := s.balance,
              notifications := s.notifications + 1 } := by
      unfold rejectDeposit
      simp [hty, hst]
    exact ⟨_, hok, rfl, rfl⟩

theorem deposit_confirm_adds_reject_keeps_witness :
    (∃ s2, confirmDeposit
        { tx := { type := "deposit", amount := 25, status := "pending", rejectReason := none },
          balance := 10, notifications := 0 } = .ok s2 ∧
        s2.balance = 10 + 25 ∧
        s2.tx.status = "completed") ∧
    (∃ s3, rejectDeposit (some "fake receipt")
        { tx := { type := "deposit", amount := 25, status := "pending", rejectReason := none },
          balance := 10, notifications := 0 } = .ok s3 ∧
        s3.balance = 10 ∧
        s3.tx.status = "failed") :=
  deposit_confirm_adds_reject_keeps _ (some "fake receipt") rfl rfl

/-- A deposit transaction whose status is already "completed" or already
"failed" makes both deposit endpoints answer with an error. -/
theorem depositStep_error_of_settled (op : DepositOp) (t : DepositSt)
    (h : t.tx.status = "completed" ∨ t.tx.status = "failed") :
    ∃ e, depositStep op t = .error e := by
  by_cases hty : t.tx.type = "deposit"
  · rcases h with h | h <;> cases op
    · exact ⟨"Already confirmed", by unfold depositStep confirmDeposit; simp [hty, h]⟩
    · exact ⟨"Already confirmed", by unfold depositStep rejectDeposit; simp [hty, h]⟩
    · by_cases hc : t.tx.status = "completed"
      · exact ⟨"Already confirmed", by unfold depositStep confirmDeposit; simp [hty, hc]⟩
      · exact ⟨"Already rejected", by unfold depositStep confirmDeposit; simp [hty, hc, h]⟩
    · by_cases hc : t.tx.status = "completed"
      · exact ⟨"Already confirmed", by unfold depositStep rejectDeposit; simp [hty, hc]⟩
      · exact ⟨"Already rejected", by unfold depositStep rejectDeposit; simp [hty, hc, h]⟩
  · cases op
    · exact ⟨"Not a deposit transaction", by unfold depositStep confirmDeposit; simp [hty]⟩
    · exact ⟨"Not a deposit transaction", by unfold depositStep rejectDeposit; simp [hty]⟩

/-- Once a deposit transaction is settled, any further sequence of deposit
confirm/reject requests leaves the whole state untouched. -/
theorem depositRun_settled (ops : List DepositOp) (t : DepositSt)
    (h : t.tx.status = "completed" ∨ t.tx.status = "failed") :
    depositRun ops t = t := by
  induction ops with
  | nil => rfl
  | cons op rest ih =>
      obtain ⟨e, he⟩ := depositStep_error_of_settled op t h
      simp [depositRun, he, ih]

/-- A successful deposit confirm credits exactly the amount and settles the
transaction; a successful reject keeps the balance and settles it; errors
change nothing.  Consequently, over any sequence of requests, the balance
moves by the deposit amount at most once. -/
theorem depositRun_credit_at_most_once (ops : List DepositOp) (s : DepositSt) :
    (depositRun ops s).balance = s.balance ∨
    (depositRun ops s).balance = s.balance + s.tx.amount := by
  induction ops generalizing s with
  | nil => exact Or.inl rfl
  | cons op rest ih =>
      cases op with
      | confirm =>
          by_cases hty : s.tx.type = "deposit"
          · by_cases hc : s.tx.status = "completed"
            · have he : depositStep .confirm s = .error "Already confirmed" := by
                unfold depositStep confirmDeposit; simp [hty, hc]
              simpa [depositRun, he] using ih s
            · by_cases hf : s.tx.status = "failed"
              · have he : depositStep .confirm s = .error "Already rejected" := by
                  unfold depositStep confirmDeposit; simp [hty, hc, hf]
                simpa [depositRun, he] using ih s
              · have hok : depositStep .confirm s =
                    .ok { tx := { s.tx with status := "completed" },
                          balance := s.balance + s.tx.amount,
                          notifications := s.notifications + 1 } := by
                  unfold depositStep confirmDeposit; simp [hty, hc, hf]
                have hrest := depositRun_settled rest
                    { tx := { s.tx with status := "completed" },
                      balance := s.balance + s.tx.amount,
                      notifications := s.notifications + 1 } (Or.inl rfl)
                simp [depositRun, hok, hrest]
          · have he : depositStep .confirm s = .error "Not a deposit transaction" := by
              unfold depositStep confirmDeposit; simp [hty]
            simpa [depositRun, he] using ih s
      | reject reason =>
          by_cases hty : s.tx.type = "deposit"
          · by_cases hc : s.tx.status = "completed"
            · have he : depositStep (.reject reason) s = .error "Already confirmed" := by
                unfold depositStep rejectDeposit; simp [hty, hc]
              simpa [depositRun, he] using ih s
            · by_cases hf : s.tx.status = "failed"
              · have he : depositStep (.reject reason) s = .error "Already rejected" := by
                  unfold depositStep rejectDeposit; simp [hty, hc, hf]
                simpa [depositRun, he] using ih s
              · have hok : depositStep (.reject reason) s =
                    .ok { tx := { s.tx with
                                   status := "failed",
                                   rejectReason := some (reason.getD "No reason provided") },
                          balance := s.balance,
                          notifications := s.notifications + 1 } := by
                  unfold depositStep rejectDeposit; simp [hty, hc, hf]
                have hrest := depositRun_settled rest
                    { tx := { s.tx with
                               status := "failed",
                               rejectReason := some (reason.getD "No reason provided") },
                      balance := s.balance,
                      notifications := s.notifications + 1 } (Or.inr rfl)
                simp [depositRun, hok, hrest]
          · have he : depositStep (.reject reason) s = .error "Not a deposit transaction" := by
              unfold depositStep rejectDeposit; simp [hty]
            simpa [depositRun, he] using ih s

/-- C10: confirming or rejecting a deposit transaction that is already
"completed" or already "failed" answers with an error and leaves the
transaction (status and rejectReason) and the balance unchanged — over a
whole sequence of such requests the state is literally identical — and a
single deposit can credit the balance at most once: after any sequence of
requests the balance is either unchanged or raised by exactly the deposit
amount. -/
theorem deposit_settled_frozen_single_credit (op : DepositOp) (ops : List DepositOp)
    (t s : DepositSt)
    (h : t.tx.status = "completed" ∨ t.tx.status = "failed") :
    (∃ e, depositStep op t = .error e) ∧
    depositRun ops t = t ∧
    ((depositRun ops s).balance = s.balance ∨
      (depositRun ops s).balance = s.balance + s.tx.amount) :=
  ⟨depositStep_error_of_settled op t h, depositRun_settled ops t h,
    depositRun_credit_at_most_once ops s⟩

theorem deposit_settled_frozen_single_credit_witness :
    (∃ e, depositStep .confirm
        { tx := { type := "deposit", amount := 25, status := "completed", rejectReason := none },
          balance := 35, notifications := 1 } = .error e) ∧
    depositRun [.confirm, .reject none]
        { tx := { type := "deposit", amount := 25, status := "completed", rejectReason := none },
          balance := 35, notifications := 1 } =
      { tx := { type := "deposit", amount := 25, status := "completed", rejectReason := none },
        balance := 35, notifications := 1 } ∧
    ((depositRun [.confirm, .reject none]
        { tx := { type := "deposit", amount := 25, status := "pending", rejectReason := none },
          balance := 10, notifications := 0 }).balance = 10 ∨
      (depositRun [.confirm, .reject none]
        { tx := { type := "deposit", amount := 25, status := "pending", rejectReason := none },
          balance := 10, notifications := 0 }).balance = 10 + 25) :=
  deposit_settled_frozen_single_credit .confirm [.confirm, .reject none] _ _ (Or.inl rfl)

/-- Confirm and reject both answer with an error when the order is not in
"Pending Admin Approval". -/
theorem adminStep_error_of_wrong_status (op : AdminOp) (t : AdminSt)
    (h : ¬ t.order.status = "Pending Admin Approval") :
    ∃ e, adminStep op t = .error e := by
  by_cases hp : t.order.provider = "manual"
  · cases op
    · exact ⟨"Order is not awaiting admin confirmation",
        by unfold adminStep confirmOrder; simp [hp, h]⟩
    · exact ⟨"Order is not awaiting admin confirmation",
        by unfold adminStep rejectOrder; simp [hp, h]⟩
  · cases op
    · exact ⟨"Only manual orders can be confirmed",
        by unfold adminStep confirmOrder; simp [hp]⟩
    · exact ⟨"Only manual orders can be rejected",
        by unfold adminStep rejectOrder; simp [hp]⟩

/-- Confirm and reject both answer with an error when the order's
provider is not "manual". -/
theorem adminStep_error_of_not_manual (op : AdminOp) (t : AdminSt)
    (hp : ¬ t.order.provider = "manual") :
    ∃ e, adminStep op t = .error e := by
  cases op
  · exact ⟨"Only manual orders can be confirmed",
      by unfold adminStep confirmOrder; simp [hp]⟩
  · exact ⟨"Only manual orders can be rejected",
      by unfold adminStep rejectOrder; simp [hp]⟩

/-- Any sequence of confirm/reject requests against an order that is not
in "Pending Admin Approval" leaves the whole state untouched. -/
theorem adminRun_frozen (ops : List AdminOp) (t : AdminSt)
    (h : ¬ t.order.status = "Pending Admin Approval") :
    adminRun ops t = t := by
  induction ops with
  | nil => rfl
  | cons op rest ih =>
      obtain ⟨e, he⟩ := adminStep_error_of_wrong_status op t h
      simp [adminRun, he, ih]

/-- Any sequence of confirm/reject requests against a non-manual order
leaves the whole state untouched. -/
theorem adminRun_not_manual (ops : List AdminOp) (t : AdminSt)
    (hp : ¬ t.order.provider = "manual") :
    adminRun ops t = t := by
  induction ops with
  | nil => rfl
  | cons op rest ih =>
      obtain ⟨e, he⟩ := adminStep_error_of_not_manual op t hp
      simp [adminRun, he, ih]

/-- From a manual order awaiting approval, one confirm or reject request
succeeds and moves the order into a terminal status. -/
theorem adminStep_pending_terminal (op : AdminOp) (s : AdminSt)
    (hp : s.order.provider = "manual")
    (hs : s.order.status = "Pending Admin Approval") :
    ∃ s2, adminStep op s = .ok s2 ∧
      (s2.order.status = "Completed" ∨ s2.order.status = "Rejected") := by
  cases op with
  | confirm notes =>
      cases htx : s.txn with
      | some t =>
          refine ⟨{ order := { s.order with
                        status := "Completed",
                        adminNotes := notes.getD "Confirmed by admin" },
                    txn := some { t with status := "completed" },
                    balance := if s.balance ≥ s.order.charge
                               then s.balance - s.order.charge else s.balance,
                    notifications := s.notifications + 1 }, ?_, Or.inl rfl⟩
          unfold adminStep confirmOrder
          rw [htx]
          simp [hp, hs]
      | none =>
          refine ⟨{ order := { s.order with
                        status := "Completed",
                        adminNotes := notes.getD "Confirmed by admin" },
                    txn := none,
                    balance := s.balance,
                    notifications := s.notifications + 1 }, ?_, Or.inl rfl⟩
          unfold adminStep confirmOrder
          rw [htx]
          simp [hp, hs]
  | reject reason =>
      refine ⟨{ order := { s.order with
                    status := "Rejected",
                    adminNotes := reason.getD "Rejected by admin" },
                txn := s.txn.map (fun t => { t with status := "failed" }),
                balance := s.balance,
                notifications := s.notifications + 1 }, ?_, Or.inr rfl⟩
      unfold adminStep rejectOrder
      simp [hp, hs]

/-- C4: every sequence of admin confirm/reject requests on one manual
order awaiting approval ends with the order either still pending and the
state literally unchanged, or in exactly one of the two terminal statuses
"Completed"/"Rejected"; and a confirm or reject against an order that is
not in "Pending Admin Approval" (in particular one already terminal), or
whose provider is not "manual", answers with an error while the whole
order/transaction/user state stays untouched over any request
sequence. -/
theorem admin_single_terminal (ops : List AdminOp) (op : AdminOp) (s t : AdminSt)
    (hp : s.order.provider = "manual")
    (hs : s.order.status = "Pending Admin Approval") :
    ((adminRun ops s).order.status = "Pending Admin Approval" ∧ adminRun ops s = s
      ∨ (adminRun ops s).order.status = "Completed"
      ∨ (adminRun ops s).order.status = "Rejected") ∧
    (¬ t.order.status = "Pending Admin Approval" →
        (∃ e, adminStep op t = .error e) ∧ adminRun ops t = t) ∧
    (¬ t.order.provider = "manual" →
        (∃ e, adminStep op t = .error e) ∧ adminRun ops t = t) := by
  refine ⟨?_, fun h => ⟨adminStep_error_of_wrong_status op t h, adminRun_frozen ops t h⟩,
          fun h => ⟨adminStep_error_of_not_manual op t h, adminRun_not_manual ops t h⟩⟩
  cases ops with
  | nil => exact Or.inl ⟨hs, rfl⟩
  | cons op1 rest =>
      obtain ⟨s2, hstep, hterm⟩ := adminStep_pending_terminal op1 s hp hs
      have hfrozen : adminRun rest s2 = s2 := by
        apply adminRun_frozen
        rcases hterm with h | h <;> simp [h]
      have hrun : adminRun (op1 :: rest) s = s2 := by
        simp [adminRun, hstep, hfrozen]
      rw [hrun]
      rcases hterm with h | h
      · exact Or.inr (Or.inl h)
      · exact Or.inr (Or.inr h)

theorem admin_single_terminal_witness :
    ((adminRun [.confirm none, .reject none]
        { order := { provider := "manual", status := "Pending Admin Approval",
                     adminNotes := "", charge := 20 },
          txn := some { amount := 20, status := "pending" },
          balance := 50, notifications := 0 }).order.status = "Pending Admin Approval" ∧
      adminRun [.confirm none, .reject none]
        { order := { provider := "manual", status := "Pending Admin Approval",
                     adminNotes := "", charge := 20 },
          txn := some { amount := 20, status := "pending" },
          balance := 50, notifications := 0 } =
        { order := { provider := "manual", status := "Pending Admin Approval",
                     adminNotes := "", charge := 20 },
          txn := some { amount := 20, status := "pending" },
          balance := 50, notifications := 0 }
      ∨ (adminRun [.confirm none, .reject none]
          { order := { provider := "manual", status := "Pending Admin Approval",
                       adminNotes := "", charge := 20 },
            txn := some { amount := 20, status := "pending" },
            balance := 50, notifications := 0 }).order.status = "Completed"
      ∨ (adminRun [.confirm none, .reject none]
          { order := { provider := "manual", status := "Pending Admin Approval",
                       adminNotes := "", charge := 20 },
            txn := some { amount := 20, status := "pending" },
            balance := 50, notifications := 0 }).order.status = "Rejected") ∧
    (¬ ({ order := { provider := "manual", status := "Completed",
                     adminNotes := "done", charge := 20 },
          txn := some { amount := 20, status := "completed" },
          balance := 30, notifications := 1 } : AdminSt).order.status
          = "Pending Admin Approval" →
        (∃ e, adminStep (.reject none)
            { order := { provider := "manual", status := "Completed",
                         adminNotes := "done", charge := 20 },
              txn := some { amount := 20, status := "completed" },
              balance := 30, notifications := 1 } = .error e) ∧
        adminRun [.confirm none, .reject none]
            { order := { provider := "manual", status := "Completed",
                         adminNotes := "done", charge := 20 },
              txn := some { amount := 20, status := "completed" },
              balance := 30, notifications := 1 } =
          { order := { provider := "manual", status := "Completed",
                       adminNotes := "done", charge := 20 },
            txn := some { amount := 20, status := "completed" },
            balance := 30, notifications := 1 }) ∧
    (¬ ({ order := { provider := "manual", status := "Completed",
                     adminNotes := "done", charge := 20 },
          txn := some { amount := 20, status := "completed" },
          balance := 30, notifications := 1 } : AdminSt).order.provider = "manual" →
        (∃ e, adminStep (.reject none)
            { order := { provider := "manual", status := "Completed",
                         adminNotes := "done", charge := 20 },
              txn := some { amount := 20, status := "completed" },
              balance := 30, notifications := 1 } = .error e) ∧
        adminRun [.confirm none, .reject none]
            { order := { provider := "manual", status := "Completed",
                         adminNotes := "done", charge := 20 },
              txn := some { amount := 20, status := "completed" },
              balance := 30, notifications := 1 } =
          { order := { provider := "manual", status := "Completed",
                       adminNotes := "done", charge := 20 },
            txn := some { amount := 20, status := "completed" },
            balance := 30, notifications := 1 }) :=
  admin_single_terminal [.confirm none, .reject none] (.reject none) _ _ rfl rfl

/-- The sweep stores one result order per open order. -/
theorem runSweep_length (fetch : Nat → Except String (Option StatusSnapshot))
    (u : Bool) (orders : List SyncOrder) :
    (runSweep fetch u orders).1.length = orders.length := by
  induction orders with
  | nil => rfl
  | cons o rest ih => simp [runSweep, ih]

/-- Each order's sweep outcome depends only on that order and its own
provider fetch: the i-th result order is exactly the independent
per-order processing of the i-th open order. -/
theorem runSweep_get (fetch : Nat → Except String (Option StatusSnapshot))
    (u : Bool) (orders : List SyncOrder) (i : Nat) :
    (runSweep fetch u orders).1.get? i =
      (orders.get? i).map (fun a => (sweepOrder fetch u a).1) := by
  induction orders generalizing i with
  | nil => simp [runSweep]
  | cons o rest ih =>
      cases i with
      | zero => simp [runSweep]
      | succ n => simpa [runSweep] using ih n

/-- C6: within one scheduled sweep, a provider fetch failure for one order
is absorbed (that order is left untouched and zero notifications are
emitted for it) while every other order is still processed independently:
the sweep's i-th result is the per-order processing of the i-th open
order, one result per order, and in particular an order whose fetch
succeeded with a changed status is still updated; the job as a whole
always produces a result (it never propagates the per-order failure). -/
theorem sweep_failure_isolated (fetch : Nat → Except String (Option StatusSnapshot))
    (u : Bool) (orders : List SyncOrder) (o o2 : SyncOrder)
    (pid pid2 : Nat) (e : String) (i : Nat) (snap2 : StatusSnapshot) (st2 : String)
    (ho : o.providerOrder = some pid) (hf : fetch pid = .error e)
    (ho2 : o2.providerOrder = some pid2) (hf2 : fetch pid2 = .ok (some snap2))
    (hs2 : snap2.status = some st2) (hdiff : st2 ≠ o2.status) :
    sweepOrder fetch u o = (o, 0) ∧
    sweepOrder fetch u o2 =
      ({ o2 with
          status := st2,
          charge := snap2.charge.getD o2.charge,
          start_count := snap2.start_count.getD o2.start_count,
          remains := snap2.remains.getD o2.remains,
          currency := snap2.currency.getD o2.currency },
       if u then 1 else 0) ∧
    (runSweep fetch u orders).1.length = orders.length ∧
    (runSweep fetch u orders).1.get? i =
      (orders.get? i).map (fun a => (sweepOrder fetch u a).1) := by
  refine ⟨?_, ?_, runSweep_length fetch u orders, runSweep_get fetch u orders i⟩
  · simp [sweepOrder, ho, hf]
  · simp [sweepOrder, sweepApply, ho2, hf2, hs2, hdiff]

/-- A provider snapshot reporting completion, used by the concrete sweep
scenario. -/
def sampleSnap : StatusSnapshot :=
  { status := some "Completed", charge := some 1,
    start_count := none, remains := none, currency := none }

/-- A provider gateway that fails for provider order 2 and reports
`sampleSnap` for every other provider order. -/
def sampleFetch : Nat → Except String (Option StatusSnapshot) := fun n =>
  if n = 2 then .error "connect ECONNREFUSED"
  else .ok (some sampleSnap)

/-- An open (status "Pending") provider order with provider order id `n`. -/
def sampleOpenOrder (n : Nat) : SyncOrder :=
  { provider := "secsers", providerOrder := some n, status := "Pending",
    charge := 3, start_count := 0, remains := 0, currency := "USD" }

theorem sweep_failure_isolated_witness :
    sweepOrder sampleFetch true (sampleOpenOrder 2) = (sampleOpenOrder 2, 0) ∧
    sweepOrder sampleFetch true (sampleOpenOrder 1) =
      ({ sampleOpenOrder 1 with
          status := "Completed",
          charge := sampleSnap.charge.getD (sampleOpenOrder 1).charge,
          start_count := sampleSnap.start_count.getD (sampleOpenOrder 1).start_count,
          remains := sampleSnap.remains.getD (sampleOpenOrder 1).remains,
          currency := sampleSnap.currency.getD (sampleOpenOrder 1).currency },
       if true then 1 else 0) ∧
    (runSweep sampleFetch true
        [sampleOpenOrder 1, sampleOpenOrder 2, sampleOpenOrder 3]).1.length =
      [sampleOpenOrder 1, sampleOpenOrder 2, sampleOpenOrder 3].length ∧
    (runSweep sampleFetch true
        [sampleOpenOrder 1, sampleOpenOrder 2, sampleOpenOrder 3]).1.get? 0 =
      ([sampleOpenOrder 1, sampleOpenOrder 2, sampleOpenOrder 3].get? 0).map
        (fun a => (sweepOrder sampleFetch true a).1) :=
  sweep_failure_isolated sampleFetch true
    [sampleOpenOrder 1, sampleOpenOrder 2, sampleOpenOrder 3]
    (sampleOpenOrder 2) (sampleOpenOrder 1) 2 1 "connect ECONNREFUSED" 0
    sampleSnap "Completed" rfl rfl rfl rfl rfl (by decide)

/-- A provider order whose stored status is "Pending" and stored charge
is 5. -/
def pendingOrder999 : SyncOrder :=
  { provider := "secsers", providerOrder := some 999, status := "Pending",
    charge := 5, start_count := 0, remains := 0, currency := "USD" }

/-- A snapshot whose `status` equals the stored status of
`pendingOrder999` but whose `charge` differs from the stored charge. -/
def sameStatusNewCharge : StatusSnapshot :=
  { status := some "Pending", charge := some 7,
    start_count := none, remains := none, currency := none }

/-- C5 counterexample: on the on-demand refresh, a snapshot whose
`status` equals the stored status still performs a persisted write to the
order — the changed `charge` is merged and saved (`local.status =
st?.status || local.status` guards only the notification, not the save),
so the stored order differs from the original. -/
theorem refresh_equal_status_still_writes :
    refreshOrder (some sameStatusNewCharge) pendingOrder999 =
      .ok ({ pendingOrder999 with charge := 7 }, 0) ∧
    ({ pendingOrder999 with charge := 7 } : SyncOrder) ≠ pendingOrder999 := by
  exact ⟨rfl, by decide⟩

/-- C5 amended: a snapshot whose `status` equals the stored status emits
zero notifications in both paths and, in the scheduled sweep, performs no
write at all; the on-demand refresh, however, still merges and persists
the snapshot's truthy non-status fields (the order is unchanged only when
those fields are all absent).  A snapshot whose `status` differs persists
the changed fields and emits exactly one notification (in the sweep,
provided the owning user account exists). -/
theorem snapshot_idempotence (o : SyncOrder) (snap : StatusSnapshot)
    (st2 : String) (u : Bool) (pid : Nat)
    (hprov : o.provider = "secsers") (hpo : o.providerOrder = some pid) :
    (snap.status = some o.status → sweepApply (some snap) u o = (o, 0)) ∧
    (snap.status = some o.status →
        ∃ o2, refreshOrder (some snap) o = .ok (o2, 0) ∧
          o2.status = o.status ∧
          (snap.charge = none → snap.start_count = none → snap.remains = none →
            snap.currency = none → o2 = o)) ∧
    (snap.status = some st2 → st2 ≠ o.status →
        sweepApply (some snap) true o =
          ({ o with
              status := st2,
              charge := snap.charge.getD o.charge,
              start_count := snap.start_count.getD o.start_count,
              remains := snap.remains.getD o.remains,
              currency := snap.currency.getD o.currency }, 1)) ∧
    (snap.status = some st2 → st2 ≠ o.status →
        refreshOrder (some snap) o =
          .ok ({ o with
              status := st2,
              charge := snap.charge.getD o.charge,
              start_count := snap.start_count.getD o.start_count,
              remains := snap.remains.getD o.remains,
              currency := snap.currency.getD o.currency }, 1)) := by
  refine ⟨fun hst => ?_, fun hst => ?_, fun hst hne => ?_, fun hst hne => ?_⟩
  · simp [sweepApply, hst]
  · refine ⟨{ o with
        status := o.status,
        charge := snap.charge.getD o.charge,
        start_count := snap.start_count.getD o.start_count,
        remains := snap.remains.getD o.remains,
        currency := snap.currency.getD o.currency }, ?_, rfl, ?_⟩
    · simp [refreshOrder, hprov, hpo, hst]
    · intro h1 h2 h3 h4
      simp [h1, h2, h3, h4]
  · simp [sweepApply, hst, hne]
  · simp [refreshOrder, hprov, hpo, hst, hne]

theorem snapshot_idempotence_witness :
    ((sameStatusNewCharge.status = some pendingOrder999.status →
        sweepApply (some sameStatusNewCharge) true pendingOrder999 = (pendingOrder999, 0)) ∧
      (sameStatusNewCharge.status = some pendingOrder999.status →
        ∃ o2, refreshOrder (some sameStatusNewCharge) pendingOrder999 = .ok (o2, 0) ∧
          o2.status = pendingOrder999.status ∧
          (sameStatusNewCharge.charge = none → sameStatusNewCharge.start_count = none →
            sameStatusNewCharge.remains = none → sameStatusNewCharge.currency = none →
            o2 = pendingOrder999)) ∧
      (sameStatusNewCharge.status = some "Completed" → "Completed" ≠ pendingOrder999.status →
        sweepApply (some sameStatusNewCharge) true pendingOrder999 =
          ({ pendingOrder999 with
              status := "Completed",
              charge := sameStatusNewCharge.charge.getD pendingOrder999.charge,
              start_count := sameStatusNewCharge.start_count.getD pendingOrder999.start_count,
              remains := sameStatusNewCharge.remains.getD pendingOrder999.remains,
              currency := sameStatusNewCharge.currency.getD pendingOrder999.currency }, 1)) ∧
      (sameStatusNewCharge.status = some "Completed" → "Completed" ≠ pendingOrder999.status →
        refreshOrder (some sameStatusNewCharge) pendingOrder999 =
          .ok ({ pendingOrder999 with
              status := "Completed",
              charge := sameStatusNewCharge.charge.getD pendingOrder999.charge,
              start_count := sameStatusNewCharge.start_count.getD pendingOrder999.start_count,
              remains := sameStatusNewCharge.remains.getD pendingOrder999.remains,
              currency := sameStatusNewCharge.currency.getD pendingOrder999.currency }, 1))) :=
  snapshot_idempotence pendingOrder999 sameStatusNewCharge "Completed" true 999 rfl rfl
